import Mathlib

/-!
Shallow embedding of pkg/proc/amd64util/xsave.go (the XSAVE-area codec):
the AMD64Xstate data model, the decoder AMD64XstateRead, the register
projector Decode and the encoder SetXmmRegister, together with theorems
checking the specified properties.

Modelling conventions: a Go byte is a `Nat` (reads that do arithmetic on
bytes reduce mod 256), a buffer is a `List Nat`, a Go `int` is `Int`.
A Go slice expression whose bounds are out of range panics at runtime;
this is modelled by the distinguished result `XsaveErr.sliceOutOfRange`.
Go `copy` truncates at the end of the destination; this is `writeAt`.
Go functions that mutate their receiver and return an `error` are
modelled as returning the updated state paired with `Option XsaveErr`
(`none` = nil error), so that mutations already performed when an error
is returned remain visible.
-/

/-- Little-endian read of `w` bytes of `buf` starting at offset `off`
(binary.LittleEndian.Uint16/32/64; each byte taken mod 256 to reflect
its uint8 type). -/
def leUint (buf : List Nat) : Nat → Nat → Nat
  | _, 0 => 0
  | off, w+1 => buf.getD off 0 % 256 + 256 * leUint buf (off+1) w

/-- Little-endian encoding of `v` on `w` bytes (binary.Write LittleEndian). -/
def leBytes : Nat → Nat → List Nat
  | 0, _ => []
  | w+1, v => v % 256 :: leBytes w (v / 256)

/-- Go `copy(buf[p:], v)` (with `p` already known to be in range):
overwrite `buf` starting at position `p` with `v`, truncating at the end
of `buf` (`List.set` out of range is a no-op); the length of `buf` never
changes. -/
def writeAt : List Nat → Nat → List Nat → List Nat
  | buf, _, [] => buf
  | buf, p, x :: xs => writeAt (buf.set p x) (p+1) xs

/-- AMD64PtraceFpRegs tracks user_fpregs_struct in sys/user.h (xsave.go). -/
structure AMD64PtraceFpRegs where
  Cwd : Nat        -- uint16
  Swd : Nat        -- uint16
  Ftw : Nat        -- uint16
  Fop : Nat        -- uint16
  Rip : Nat        -- uint64
  Rdp : Nat        -- uint64
  Mxcsr : Nat      -- uint32
  MxcrMask : Nat   -- uint32
  StSpace : List Nat   -- [32]uint32
  XmmSpace : List Nat  -- [256]byte
  Padding : List Nat   -- [24]uint32
  deriving DecidableEq

/-- AMD64Xstate represents the amd64 XSAVE area (xsave.go).  The Go
struct embeds AMD64PtraceFpRegs; here the embedded record is the
explicit field `fpRegs`. -/
structure AMD64Xstate where
  fpRegs : AMD64PtraceFpRegs
  Xsave : List Nat       -- raw xsave area
  AvxState : Bool        -- contains AVX state
  YmmSpace : List Nat    -- [256]byte
  Avx512State : Bool     -- contains AVX512 state
  ZmmSpace : List Nat    -- [512]byte
  zmmHi256offset : Int
  deriving DecidableEq

/-- Error outcomes.  The Go code returns fmt.Errorf errors from
SetXmmRegister (the spec's RegisterWriteOutOfRange kind, one constructor
per message site) and binary.Read errors from AMD64XstateRead (the
spec's StructuralReadError kind); `sliceOutOfRange` marks a Go
slice-bounds runtime panic. -/
inductive XsaveErr where
  | structuralRead
  | notSupported
  | tooLarge
  | xmmNotInXsave
  | ymmNotInXsave
  | zmmNotInXsave
  | sliceOutOfRange
  deriving DecidableEq

/-- The RegisterWriteOutOfRange error kind of the spec: any
SetXmmRegister failure (unsupported index, oversized value, or a target
offset not inside the buffer). -/
def XsaveErr.isRegisterWriteOutOfRange : XsaveErr → Bool
  | .notSupported | .tooLarge | .xmmNotInXsave | .ymmNotInXsave | .zmmNotInXsave => true
  | .structuralRead | .sliceOutOfRange => false

def _XSAVE_XMM_REGION_START : Nat := 160
def _XSAVE_HEADER_START : Nat := 512
def _XSAVE_HEADER_LEN : Nat := 64
def _XSAVE_EXTENDED_REGION_START : Nat := 576
def _XSAVE_SSE_REGION_LEN : Nat := 416
def _I386_LINUX_XSAVE_XCR0_OFFSET : Nat := 464

/-- xstate_bv represents the xcr0 and xstate_bv bitmaps (uint64). -/
abbrev xstate_bv := Nat

def xstate_bv.hasAVX (s : xstate_bv) : Bool := s &&& (1 <<< 2) != 0
def xstate_bv.hasZMM_Hi256 (s : xstate_bv) : Bool := s &&& (1 <<< 6) != 0
def xstate_bv.hasHi16_ZMM (s : xstate_bv) : Bool := s &&& (1 <<< 7) != 0
def xstate_bv.hasPKRU (s : xstate_bv) : Bool := s &&& (1 <<< 9) != 0

/-- binary.Read of an AMD64PtraceFpRegs from the start of the buffer:
fields in declaration order, little-endian, 512 bytes in total
(8 + 16 + 8 + 128 + 256 + 96). -/
def parseLegacy (buf : List Nat) : AMD64PtraceFpRegs :=
  { Cwd := leUint buf 0 2
    Swd := leUint buf 2 2
    Ftw := leUint buf 4 2
    Fop := leUint buf 6 2
    Rip := leUint buf 8 8
    Rdp := leUint buf 16 8
    Mxcsr := leUint buf 24 4
    MxcrMask := leUint buf 28 4
    StSpace := (List.range 32).map fun i => leUint buf (32 + 4*i) 4
    XmmSpace := (buf.drop 160).take 256
    Padding := (List.range 24).map fun i => leUint buf (416 + 4*i) 4 }

/-- AMD64XstateRead reads a byte array containing an XSAVE area into
regset (xsave.go).  The Go variable holding the header bitmap is itself
called xstate_bv; it is `xsbv` here to avoid shadowing the type name.
The returned pair is the updated regset and the (optional) error. -/
def AMD64XstateRead (xstateargs : List Nat) (readLegacy : Bool)
    (regset : AMD64Xstate) (xstateZMMHi256Offset : Int) :
    AMD64Xstate × Option XsaveErr :=
  if _XSAVE_HEADER_START + _XSAVE_HEADER_LEN ≥ xstateargs.length then (regset, none)
  else if readLegacy ∧ xstateargs.length < _XSAVE_HEADER_START then
    -- binary.Read fails when the reader holds fewer than 512 bytes;
    -- unreachable here because xstateargs.length > 576
    (regset, some .structuralRead)
  else
    let regset := if readLegacy then { regset with fpRegs := parseLegacy xstateargs } else regset
    let xcr0 : xstate_bv := leUint xstateargs _I386_LINUX_XSAVE_XCR0_OFFSET 8
    let xsbv : xstate_bv := leUint xstateargs _XSAVE_HEADER_START 8
    let xcomp_bv : Nat := leUint xstateargs (_XSAVE_HEADER_START + 8) 8
    if xcomp_bv &&& (1 <<< 63) ≠ 0 then (regset, none)  -- compact format not supported
    else if ¬ xstate_bv.hasAVX xsbv then (regset, none)
    else
      -- avxstate := xstateargs[576:]; regset.AvxState = true;
      -- copy(regset.YmmSpace[:], avxstate[:256])
      let regset := { regset with AvxState := true }
      if xstateargs.length < _XSAVE_EXTENDED_REGION_START + 256 then
        (regset, some .sliceOutOfRange)
      else
        let regset := { regset with
          YmmSpace := (xstateargs.drop _XSAVE_EXTENDED_REGION_START).take 256 }
        if ¬ xstate_bv.hasZMM_Hi256 xsbv then (regset, none)
        else
          let off : Int :=
            if xstateZMMHi256Offset = 0 then
              -- Guess ZMM_Hi256 component offset
              if xstate_bv.hasPKRU xcr0 ∧ xstateargs.length = 2440 then 896 else 1152
            else xstateZMMHi256Offset
          let regset := { regset with zmmHi256offset := off }
          -- avx512state := xstateargs[off:]; regset.Avx512State = true;
          -- copy(regset.ZmmSpace[:], avx512state[:512])
          if off < 0 ∨ (xstateargs.length : Int) < off then (regset, some .sliceOutOfRange)
          else
            let regset := { regset with Avx512State := true }
            if (xstateargs.length : Int) < off + 512 then (regset, some .sliceOutOfRange)
            else ({ regset with ZmmSpace := (xstateargs.drop off.toNat).take 512 }, none)

/-- SetXmmRegister (xsave.go): writes `value` (the new contents of
register XMM n, up to 64 bytes) into the raw Xsave buffer, split across
the SSE region, the AVX extension region and the AVX-512 region.
Returns the updated state and an optional error; writes already
performed are kept on error (the Go code mutates the buffer in place). -/
def AMD64Xstate.SetXmmRegister (xstate : AMD64Xstate) (n : Int) (value : List Nat) :
    AMD64Xstate × Option XsaveErr :=
  if 16 ≤ n then (xstate, some .notSupported)
  else if 64 < value.length then (xstate, some .tooLarge)
  else
    -- xmmval := value[:16] (or all of value), rest := value[len(xmmval):]
    let xmmval := value.take 16
    let rest := value.drop 16
    let xmmpos : Int := (_XSAVE_XMM_REGION_START : Int) + n * 16
    if (xstate.Xsave.length : Int) ≤ xmmpos then (xstate, some .xmmNotInXsave)
    else if xmmpos < 0 then (xstate, some .sliceOutOfRange)  -- Xsave[xmmpos:], negative index
    else
      let xstate := { xstate with Xsave := writeAt xstate.Xsave xmmpos.toNat xmmval }
      if rest.length = 0 then (xstate, none)
      else
        let ymmval := rest.take 16
        let rest := rest.drop 16
        let ymmpos : Int := (_XSAVE_EXTENDED_REGION_START : Int) + n * 16
        if (xstate.Xsave.length : Int) ≤ ymmpos then (xstate, some .ymmNotInXsave)
        else if ymmpos < 0 then (xstate, some .sliceOutOfRange)
        else
          let xstate := { xstate with Xsave := writeAt xstate.Xsave ymmpos.toNat ymmval }
          if rest.length = 0 then (xstate, none)
          else
            let zmmval := rest
            let zmmpos : Int := xstate.zmmHi256offset + n * 32
            if (xstate.Xsave.length : Int) ≤ zmmpos then (xstate, some .zmmNotInXsave)
            else if zmmpos < 0 then (xstate, some .sliceOutOfRange)
            else ({ xstate with Xsave := writeAt xstate.Xsave zmmpos.toNat zmmval }, none)

/-- One row of the decoded register list. -/
inductive RegValue where
  | u64 (v : Nat)
  | bytes (bs : List Nat)
  deriving DecidableEq

/-- A named register row (the proc.Register collaborator). -/
structure Register where
  name : String
  value : RegValue
  deriving DecidableEq

/-- Modelled from the spec: proc.AppendUint64Register (pkg/proc, outside
this core) appends a named 64-bit value row to the ordered register
list. -/
def AppendUint64Register (regs : List Register) (nm : String) (v : Nat) : List Register :=
  regs ++ [⟨nm, .u64 v⟩]

/-- Modelled from the spec: proc.AppendBytesRegister (pkg/proc, outside
this core) appends a named raw-bytes value row to the ordered register
list. -/
def AppendBytesRegister (regs : List Register) (nm : String) (v : List Nat) : List Register :=
  regs ++ [⟨nm, .bytes v⟩]

/-- The 10 bytes of ST(k): the 64-bit mantissa
uint64(StSpace[4k+1])<<32 | uint64(StSpace[4k]) written little-endian,
followed by the 16-bit word uint16(StSpace[4k+2]) little-endian
(xsave.go, Decode loop body; StSpace entries are uint32). -/
def stRegBytes (stSpace : List Nat) (k : Nat) : List Nat :=
  leBytes 8 ((stSpace.getD (4*k+1) 0 % 2^32) <<< 32 ||| (stSpace.getD (4*k) 0 % 2^32))
    ++ leBytes 2 (stSpace.getD (4*k+2) 0 % 2^16)

/-- Decode decodes an XSAVE area to a list of name/value pairs of
registers (xsave.go).  Loop bounds come from the Go array types:
len(StSpace) = 32 stepping by 4 (8 iterations), len(XmmSpace) = 256
stepping by 16 (16 iterations, n = i/16). -/
def AMD64Xstate.Decode (xstate : AMD64Xstate) : List Register :=
  let regs : List Register := []
  -- x87 registers
  let regs := AppendUint64Register regs "CW" (xstate.fpRegs.Cwd % 2^16)
  let regs := AppendUint64Register regs "SW" (xstate.fpRegs.Swd % 2^16)
  let regs := AppendUint64Register regs "TW" (xstate.fpRegs.Ftw % 2^16)
  let regs := AppendUint64Register regs "FOP" (xstate.fpRegs.Fop % 2^16)
  let regs := AppendUint64Register regs "FIP" (xstate.fpRegs.Rip % 2^64)
  let regs := AppendUint64Register regs "FDP" (xstate.fpRegs.Rdp % 2^64)
  let regs := (List.range 8).foldl (fun regs k =>
    AppendBytesRegister regs (s!"ST({k})") (stRegBytes xstate.fpRegs.StSpace k)) regs
  -- SSE registers
  let regs := AppendUint64Register regs "MXCSR" (xstate.fpRegs.Mxcsr % 2^32)
  let regs := AppendUint64Register regs "MXCSR_MASK" (xstate.fpRegs.MxcrMask % 2^32)
  let regs := (List.range 16).foldl (fun regs n =>
    let regs := AppendBytesRegister regs (s!"XMM{n}") ((xstate.fpRegs.XmmSpace.drop (16*n)).take 16)
    if xstate.AvxState then
      let regs := AppendBytesRegister regs (s!"YMM{n}") ((xstate.YmmSpace.drop (16*n)).take 16)
      if xstate.Avx512State then
        AppendBytesRegister regs (s!"ZMM{n}") ((xstate.ZmmSpace.drop (32*n)).take 32)
      else regs
    else regs) regs
  regs

/-- Look a register up by name in a projected register list. -/
def findReg (regs : List Register) (nm : String) : Option RegValue :=
  (regs.find? fun r => r.name == nm).map Register.value

/-- The all-zero legacy record, for building concrete states. -/
def zeroFp : AMD64PtraceFpRegs :=
  ⟨0, 0, 0, 0, 0, 0, 0, 0, List.replicate 32 0, List.replicate 256 0, List.replicate 24 0⟩

/-- A concrete state with the given raw buffer and cached AVX-512
offset, all remaining fields zero/absent. -/
def mkXstate (xs : List Nat) (off : Int) : AMD64Xstate :=
  ⟨zeroFp, xs, false, List.replicate 256 0, false, List.replicate 512 0, off⟩

/-! ## Helper lemmas about the raw-buffer write primitive -/

theorem writeAt_length (v buf : List Nat) (p : Nat) :
    (writeAt buf p v).length = buf.length := by
  induction v generalizing buf p with
  | nil => rfl
  | cons x xs ih => rw [writeAt, ih, List.length_set]

theorem writeAt_getD (v buf : List Nat) (p i : Nat) :
    (writeAt buf p v).getD i 0 =
      if p ≤ i ∧ i < p + v.length ∧ i < buf.length then v.getD (i - p) 0
      else buf.getD i 0 := by
  induction v generalizing buf p with
  | nil =>
    rw [show writeAt buf p [] = buf from rfl,
      if_neg (by simp only [List.length_nil]; omega)]
  | cons x xs ih =>
    rw [writeAt, ih]
    by_cases hA : p + 1 ≤ i ∧ i < p + 1 + xs.length ∧ i < buf.length
    · rw [if_pos (by simpa [List.length_set] using hA),
        if_pos (by simp only [List.length_cons]; omega)]
      have hip : i - p = (i - (p+1)) + 1 := by omega
      rw [hip, List.getD_cons_succ]
    · rw [if_neg (by simpa [List.length_set] using hA)]
      by_cases hB : i = p ∧ p < buf.length
      · rcases hB with ⟨rfl, hp⟩
        rw [if_pos (by simp only [List.length_cons]; omega), Nat.sub_self,
          List.getD_cons_zero, List.getD_eq_getElem?_getD,
          List.getElem?_set_self hp]
        rfl
      · rw [if_neg (by simp only [List.length_cons]; omega),
          List.getD_eq_getElem?_getD, List.getD_eq_getElem?_getD]
        by_cases hp : p < buf.length
        · rw [List.getElem?_set_ne (by omega)]
        · rw [List.set_eq_of_length_le (by omega)]

theorem set_getElem_self (l : List Nat) (i : Nat) (h : i < l.length) :
    l.set i l[i] = l := by
  apply List.ext_getElem (by simp)
  intro n h1 h2
  rw [List.getElem_set]
  split
  · subst_vars; rfl
  · rfl

/-- Writing back bytes that are already in the buffer at that position
is a no-op. -/
theorem writeAt_self (buf : List Nat) (p k : Nat) :
    writeAt buf p ((buf.drop p).take k) = buf := by
  induction k generalizing p with
  | zero => simp [writeAt]
  | succ j ih =>
    by_cases hp : p < buf.length
    · have hd : buf.drop p = buf[p] :: buf.drop (p+1) := by
        rw [List.drop_eq_getElem_cons hp]
      rw [hd, List.take_cons (by omega), writeAt, set_getElem_self buf p hp]
      simpa using ih (p+1)
    · have hd : buf.drop p = [] := List.drop_eq_nil_of_le (by omega)
      rw [hd]
      rfl

set_option maxRecDepth 8000

/-! ## Concrete inputs used by witnesses and counterexamples -/

/-- 600-byte buffer: non-compact, header-bitmap AVX bit set (byte 512 =
4), too short for the 256-byte AVX block at offset 576. -/
def buf600 : List Nat := List.replicate 512 0 ++ [4] ++ List.replicate 87 0

/-- 1664-byte buffer: non-compact, header-bitmap AVX and ZMM_Hi256 bits
set (byte 512 = 68 = bit 2 + bit 6), xcr0 clear. -/
def buf1664 : List Nat := List.replicate 512 0 ++ [68] ++ List.replicate 1151 0

/-- 2440-byte buffer: xcr0 PKRU bit set (byte 465 = 2, bit 9 of the
64-bit word at 464), header-bitmap AVX and ZMM_Hi256 bits set. -/
def buf2440 : List Nat :=
  List.replicate 464 0 ++ [0, 2] ++ List.replicate 46 0 ++ [68] ++ List.replicate 1927 0

/-! ## C1 -/

/-- C1 (amended): for every buffer no longer than header-start +
header-length (576), decode returns immediately with a nil error and the
regset completely unchanged: AVX and AVX-512 stay absent, and the legacy
state is NOT populated even when readLegacy is requested; no
StructuralReadError is ever produced for such buffers. -/
theorem C1_short_buffer_amended (buf : List Nat) (rl : Bool) (regset : AMD64Xstate) (hint : Int)
    (hlen : buf.length ≤ _XSAVE_HEADER_START + _XSAVE_HEADER_LEN) :
    AMD64XstateRead buf rl regset hint = (regset, none) := by
  rw [AMD64XstateRead, if_pos (by omega)]

/-- Witness for C1_short_buffer_amended at a concrete 100-byte buffer. -/
theorem C1_short_buffer_amended_witness :
    (List.replicate 100 0).length ≤ _XSAVE_HEADER_START + _XSAVE_HEADER_LEN ∧
    AMD64XstateRead (List.replicate 100 0) true (mkXstate [] 0) 0 = (mkXstate [] 0, none) :=
  ⟨by decide, C1_short_buffer_amended (List.replicate 100 0) true (mkXstate [] 0) 0 (by decide)⟩

/-- Counterexample to C1 as stated: a 512-byte buffer (= the legacy
length, shorter than 576) decoded with readLegacy = true leaves the
regset untouched (Cwd stays 99 although the buffer would parse to Cwd =
0), so the legacy state is NOT populated although the buffer is at least
512 bytes; and a 100-byte buffer with readLegacy = true returns a nil
error, not a StructuralReadError. -/
theorem C1_counterexample :
    AMD64XstateRead (List.replicate 512 0) true
        { mkXstate [] 0 with fpRegs := { zeroFp with Cwd := 99 } } 0
      = ({ mkXstate [] 0 with fpRegs := { zeroFp with Cwd := 99 } }, none) ∧
    (parseLegacy (List.replicate 512 0)).Cwd = 0 ∧
    AMD64XstateRead (List.replicate 100 0) true (mkXstate [] 0) 0 = (mkXstate [] 0, none) := by
  refine ⟨?_, by decide, ?_⟩ <;> decide

/-! ## C8 -/

/-- C8: whenever bit 63 of the 64-bit compaction flag (the second word
of the XSAVE header, at offset 520) is set, decode returns with a nil
error and the AVX presence flag still absent, regardless of the header
bitmap's AVX bit. -/
theorem C8_compact_flag (buf : List Nat) (rl : Bool) (regset : AMD64Xstate) (hint : Int)
    (hA : regset.AvxState = false)
    (hbit : leUint buf (_XSAVE_HEADER_START + 8) 8 &&& (1 <<< 63) ≠ 0) :
    (AMD64XstateRead buf rl regset hint).2 = none ∧
    (AMD64XstateRead buf rl regset hint).1.AvxState = false := by
  rw [AMD64XstateRead]
  by_cases hlen : _XSAVE_HEADER_START + _XSAVE_HEADER_LEN ≥ buf.length
  · rw [if_pos hlen]
    exact ⟨rfl, hA⟩
  · rw [if_neg hlen, if_neg (by
      rintro ⟨-, h⟩
      revert hlen
      simp only [_XSAVE_HEADER_START, _XSAVE_HEADER_LEN] at h ⊢
      omega)]
    simp only [if_pos hbit]
    cases rl <;> simp [hA]

/-- Witness for C8_compact_flag: a 577-byte buffer whose byte 527 is
128, i.e. the compaction flag's top bit is set, with the AVX header bit
clear here (the companion claim theorem covers it set or clear). -/
theorem C8_compact_flag_witness :
    ((mkXstate [] 0).AvxState = false ∧
     leUint (List.replicate 527 0 ++ [128] ++ List.replicate 49 0)
        (_XSAVE_HEADER_START + 8) 8 &&& (1 <<< 63) ≠ 0) ∧
    (AMD64XstateRead (List.replicate 527 0 ++ [128] ++ List.replicate 49 0) true
        (mkXstate [] 0) 0).2 = none ∧
    (AMD64XstateRead (List.replicate 527 0 ++ [128] ++ List.replicate 49 0) true
        (mkXstate [] 0) 0).1.AvxState = false :=
  ⟨⟨by decide, by decide⟩,
   C8_compact_flag _ true (mkXstate [] 0) 0 (by decide) (by decide)⟩

/-! ## C9 -/

/-- C9: decode preserves the invariant that AVX-512 presence implies AVX
presence: starting from any regset satisfying it, the resulting state
satisfies it too. -/
theorem C9_avx512_implies_avx (buf : List Nat) (rl : Bool) (regset : AMD64Xstate) (hint : Int)
    (hinv : regset.Avx512State = true → regset.AvxState = true)
    (h512 : (AMD64XstateRead buf rl regset hint).1.Avx512State = true) :
    (AMD64XstateRead buf rl regset hint).1.AvxState = true := by
  rw [AMD64XstateRead] at h512 ⊢
  by_cases h1 : _XSAVE_HEADER_START + _XSAVE_HEADER_LEN ≥ buf.length
  · rw [if_pos h1] at h512 ⊢; exact hinv h512
  · rw [if_neg h1] at h512 ⊢
    by_cases h2 : rl ∧ buf.length < _XSAVE_HEADER_START
    · rw [if_pos h2] at h512 ⊢; exact hinv h512
    · rw [if_neg h2] at h512 ⊢
      simp only at h512 ⊢
      by_cases h3 : leUint buf (_XSAVE_HEADER_START + 8) 8 &&& (1 <<< 63) ≠ 0
      · rw [if_pos h3] at h512 ⊢
        cases rl <;> simp_all
      · rw [if_neg h3] at h512 ⊢
        by_cases h4 : ¬ xstate_bv.hasAVX (leUint buf _XSAVE_HEADER_START 8)
        · rw [if_pos h4] at h512 ⊢
          cases rl <;> simp_all
        · rw [if_neg h4] at h512 ⊢
          clear h512
          repeat' split
          all_goals rfl

/-- Witness for C9_avx512_implies_avx at a concrete decode that does set
the AVX-512 flag (1664-byte buffer, AVX and ZMM_Hi256 bits set). -/
theorem C9_avx512_implies_avx_witness :
    (((mkXstate [] 0).Avx512State = true → (mkXstate [] 0).AvxState = true) ∧
     (AMD64XstateRead buf1664 false (mkXstate [] 0) 0).1.Avx512State = true) ∧
    (AMD64XstateRead buf1664 false (mkXstate [] 0) 0).1.AvxState = true :=
  ⟨⟨by decide, by decide⟩,
   C9_avx512_implies_avx buf1664 false (mkXstate [] 0) 0 (by decide) (by decide)⟩

/-! ## C4 -/

/-- The AVX-512 high-256 offset resolution rule as the claim states it:
a nonzero caller hint is used verbatim; a zero hint resolves to 896 when
the per-process (xcr0) bitmap has the PKRU bit set and the buffer is
exactly 2440 bytes long, and to 1152 in every other case. -/
def guessedZmmOffset (xcr0 : xstate_bv) (buflen : Nat) (hint : Int) : Int :=
  if hint = 0 then
    if xstate_bv.hasPKRU xcr0 ∧ buflen = 2440 then 896 else 1152
  else hint

/-- C4: when decode reaches the offset-resolution step (buffer long
enough, non-compact, AVX and ZMM_Hi256 header bits set) and the copies
stay in bounds, the AVX-512 offset is resolved exactly as
guessedZmmOffset prescribes (hint used verbatim when nonzero; otherwise
896 iff PKRU and length 2440, else 1152), the resolved offset is
recorded on the result state, and decode succeeds. -/
theorem C4_offset_resolution (buf : List Nat) (rl : Bool) (regset : AMD64Xstate) (hint : Int)
    (hymm : _XSAVE_EXTENDED_REGION_START + 256 ≤ buf.length)
    (hcomp : leUint buf (_XSAVE_HEADER_START + 8) 8 &&& (1 <<< 63) = 0)
    (havx : xstate_bv.hasAVX (leUint buf _XSAVE_HEADER_START 8) = true)
    (hzmm : xstate_bv.hasZMM_Hi256 (leUint buf _XSAVE_HEADER_START 8) = true)
    (hoff1 : 0 ≤ guessedZmmOffset (leUint buf _I386_LINUX_XSAVE_XCR0_OFFSET 8) buf.length hint)
    (hoff2 : guessedZmmOffset (leUint buf _I386_LINUX_XSAVE_XCR0_OFFSET 8) buf.length hint + 512
      ≤ (buf.length : Int)) :
    (AMD64XstateRead buf rl regset hint).2 = none ∧
    (AMD64XstateRead buf rl regset hint).1.zmmHi256offset
      = guessedZmmOffset (leUint buf _I386_LINUX_XSAVE_XCR0_OFFSET 8) buf.length hint ∧
    (AMD64XstateRead buf rl regset hint).1.Avx512State = true := by
  rw [AMD64XstateRead]
  rw [if_neg (by
    simp only [_XSAVE_HEADER_START, _XSAVE_HEADER_LEN, _XSAVE_EXTENDED_REGION_START] at hymm ⊢
    omega)]
  rw [if_neg (by
    rintro ⟨-, h⟩
    simp only [_XSAVE_HEADER_START, _XSAVE_EXTENDED_REGION_START] at h hymm
    omega)]
  simp only
  rw [if_neg (by simpa using hcomp)]
  rw [if_neg (by simp [havx])]
  rw [if_neg (by omega)]
  rw [if_neg (by simp [hzmm])]
  simp only [guessedZmmOffset] at hoff1 hoff2
  rw [if_neg (by omega)]
  rw [if_neg (by omega)]
  cases rl <;> exact ⟨rfl, rfl, rfl⟩

theorem buf2440_length : buf2440.length = 2440 := by
  simp [buf2440]

/-- Witness for C4_offset_resolution covering all three resolution
outcomes: the 2440-byte PKRU buffer with zero hint resolves to 896, the
1664-byte buffer with zero hint resolves to 1152, and a nonzero hint
(700) is used verbatim. -/
theorem C4_offset_resolution_witness :
    ((AMD64XstateRead buf2440 false (mkXstate [] 0) 0).1.zmmHi256offset = 896 ∧
     guessedZmmOffset (leUint buf2440 _I386_LINUX_XSAVE_XCR0_OFFSET 8) buf2440.length 0 = 896) ∧
    ((AMD64XstateRead buf1664 false (mkXstate [] 0) 0).1.zmmHi256offset = 1152 ∧
     guessedZmmOffset (leUint buf1664 _I386_LINUX_XSAVE_XCR0_OFFSET 8) buf1664.length 0 = 1152) ∧
    ((AMD64XstateRead buf1664 false (mkXstate [] 0) 700).1.zmmHi256offset = 700 ∧
     guessedZmmOffset (leUint buf1664 _I386_LINUX_XSAVE_XCR0_OFFSET 8) buf1664.length 700 = 700) :=
  ⟨⟨by rw [(C4_offset_resolution buf2440 false (mkXstate [] 0) 0
        (by rw [buf2440_length]; decide) (by decide) (by decide) (by decide)
        (by rw [buf2440_length]; decide) (by rw [buf2440_length]; decide)).2.1,
      buf2440_length]; decide,
    by rw [buf2440_length]; decide⟩,
   ⟨by rw [(C4_offset_resolution buf1664 false (mkXstate [] 0) 0 (by decide) (by decide)
        (by decide) (by decide) (by decide) (by decide)).2.1]; decide,
    by decide⟩,
   ⟨by rw [(C4_offset_resolution buf1664 false (mkXstate [] 0) 700 (by decide) (by decide)
        (by decide) (by decide) (by decide) (by decide)).2.1]; decide,
    by decide⟩⟩

/-! ## C3 -/

/-- Counterexample to C3 as stated: buf600 is 600 bytes long (> 576),
non-compact, with the header AVX bit set, yet decode's copy of the
256-byte AVX block from offset 576 reaches past the end of the buffer
(bytes 576..831), a Go slice-bounds panic, modelled as sliceOutOfRange. -/
theorem C3_counterexample :
    buf600.length = 600 ∧
    xstate_bv.hasAVX (leUint buf600 _XSAVE_HEADER_START 8) = true ∧
    leUint buf600 (_XSAVE_HEADER_START + 8) 8 &&& (1 <<< 63) = 0 ∧
    (AMD64XstateRead buf600 false (mkXstate [] 0) 0).2 = some .sliceOutOfRange := by
  refine ⟨by decide, by decide, by decide, by decide⟩

/-- C3 (amended): decode stays within the buffer provided the buffer is
at least 832 bytes (so the 256-byte AVX block at 576 fits) and, when the
ZMM_Hi256 header bit is set, the resolved AVX-512 offset is nonnegative
with offset + 512 inside the buffer; under those bounds decode returns a
nil error (no out-of-bounds access). -/
theorem C3_bounds_amended (buf : List Nat) (rl : Bool) (regset : AMD64Xstate) (hint : Int)
    (hymm : _XSAVE_EXTENDED_REGION_START + 256 ≤ buf.length)
    (hz : xstate_bv.hasZMM_Hi256 (leUint buf _XSAVE_HEADER_START 8) = true →
      0 ≤ guessedZmmOffset (leUint buf _I386_LINUX_XSAVE_XCR0_OFFSET 8) buf.length hint ∧
      guessedZmmOffset (leUint buf _I386_LINUX_XSAVE_XCR0_OFFSET 8) buf.length hint + 512
        ≤ (buf.length : Int)) :
    (AMD64XstateRead buf rl regset hint).2 = none := by
  rw [AMD64XstateRead]
  rw [if_neg (by
    simp only [_XSAVE_HEADER_START, _XSAVE_HEADER_LEN, _XSAVE_EXTENDED_REGION_START] at hymm ⊢
    omega)]
  rw [if_neg (by
    rintro ⟨-, h⟩
    simp only [_XSAVE_HEADER_START, _XSAVE_EXTENDED_REGION_START] at h hymm
    omega)]
  simp only
  by_cases hcomp : leUint buf (_XSAVE_HEADER_START + 8) 8 &&& (1 <<< 63) ≠ 0
  · rw [if_pos hcomp]
  · rw [if_neg hcomp]
    by_cases havx : ¬ xstate_bv.hasAVX (leUint buf _XSAVE_HEADER_START 8)
    · rw [if_pos havx]
    · rw [if_neg havx]
      rw [if_neg (by omega)]
      by_cases hzmm : ¬ xstate_bv.hasZMM_Hi256 (leUint buf _XSAVE_HEADER_START 8)
      · rw [if_pos hzmm]
      · rw [if_neg hzmm]
        simp only [Decidable.not_not] at hzmm
        obtain ⟨h1, h2⟩ := hz hzmm
        simp only [guessedZmmOffset] at h1 h2
        rw [if_neg (by omega)]
        rw [if_neg (by omega)]

/-- Witness for C3_bounds_amended at the 1664-byte buffer with AVX and
ZMM_Hi256 set. -/
theorem C3_bounds_amended_witness :
    (_XSAVE_EXTENDED_REGION_START + 256 ≤ buf1664.length) ∧
    (AMD64XstateRead buf1664 false (mkXstate [] 0) 0).2 = none :=
  ⟨by decide,
   C3_bounds_amended buf1664 false (mkXstate [] 0) 0 (by decide) (by decide)⟩

/-! ## C10 -/

/-- C10 (amended): setRegister does NOT reject negative indices (only
n >= 16 is rejected).  For a negative index and a value of at most 16
bytes the call behaves exactly like a write at offset 160 + 16n: it
fails with the not-in-buffer error only when that offset is at or past
the end of the buffer, hits the Go slice-bounds panic when the offset is
negative (n <= -11), and otherwise writes the value there and succeeds. -/
theorem C10_negative_index_amended (st : AMD64Xstate) (n : Int) (value : List Nat)
    (hn : n < 0) (h1 : 1 ≤ value.length) (h16 : value.length ≤ 16) :
    st.SetXmmRegister n value =
      if (st.Xsave.length : Int) ≤ (_XSAVE_XMM_REGION_START : Int) + n * 16 then
        (st, some .xmmNotInXsave)
      else if (_XSAVE_XMM_REGION_START : Int) + n * 16 < 0 then
        (st, some .sliceOutOfRange)
      else
        ({ st with Xsave := writeAt st.Xsave ((_XSAVE_XMM_REGION_START : Int) + n * 16).toNat value }, none) := by
  rw [AMD64Xstate.SetXmmRegister]
  rw [if_neg (by omega)]
  rw [if_neg (by omega)]
  simp only [List.take_of_length_le h16, List.drop_eq_nil_of_le h16, List.length_nil]
  by_cases hc1 : (st.Xsave.length : Int) ≤ (_XSAVE_XMM_REGION_START : Int) + n * 16
  · rw [if_pos hc1, if_pos hc1]
  · rw [if_neg hc1, if_neg hc1]
    by_cases hc2 : (_XSAVE_XMM_REGION_START : Int) + n * 16 < 0
    · rw [if_pos hc2, if_pos hc2]
    · rw [if_neg hc2, if_neg hc2, if_pos trivial]

/-! ## C5 -/

/-- C5: SetXmmRegister on an index >= 16 fails with the notSupported
error, on a value longer than 64 bytes fails with the tooLarge error
(both of the spec's RegisterWriteOutOfRange kind), and a 64-byte value
on a buffer that contains the first two slice offsets but not the third
fails with the zmmNotInXsave error only after slices 1 and 2 have been
written into the buffer (no rollback). -/
theorem C5_boundaries :
    (∀ (st : AMD64Xstate) (n : Int) (value : List Nat), 16 ≤ n →
      st.SetXmmRegister n value = (st, some .notSupported) ∧
      XsaveErr.notSupported.isRegisterWriteOutOfRange = true) ∧
    (∀ (st : AMD64Xstate) (n : Int) (value : List Nat), n < 16 → 64 < value.length →
      st.SetXmmRegister n value = (st, some .tooLarge) ∧
      XsaveErr.tooLarge.isRegisterWriteOutOfRange = true) ∧
    (∀ (st : AMD64Xstate) (n : Nat) (value : List Nat), n < 16 → value.length = 64 →
      160 + 16 * n < st.Xsave.length → 576 + 16 * n < st.Xsave.length →
      (st.Xsave.length : Int) ≤ st.zmmHi256offset + (n : Int) * 32 →
      st.SetXmmRegister n value =
        ({ st with Xsave := writeAt (writeAt st.Xsave (160 + 16 * n) (value.take 16))
                              (576 + 16 * n) ((value.drop 16).take 16) },
          some .zmmNotInXsave) ∧
      XsaveErr.zmmNotInXsave.isRegisterWriteOutOfRange = true) := by
  refine ⟨?_, ?_, ?_⟩
  · intro st n value hn
    rw [AMD64Xstate.SetXmmRegister, if_pos hn]
    exact ⟨rfl, rfl⟩
  · intro st n value hn hlen
    rw [AMD64Xstate.SetXmmRegister, if_neg (by omega), if_pos hlen]
    exact ⟨rfl, rfl⟩
  · intro st n value hn hlen h1 h2 h3
    rw [AMD64Xstate.SetXmmRegister]
    rw [if_neg (by omega)]
    rw [if_neg (by omega)]
    simp only
    rw [if_neg (by simp only [_XSAVE_XMM_REGION_START]; push_cast; omega)]
    rw [if_neg (by simp only [_XSAVE_XMM_REGION_START]; push_cast; omega)]
    rw [if_neg (by simp only [List.length_drop]; omega)]
    rw [if_neg (by
      simp only [writeAt_length, _XSAVE_EXTENDED_REGION_START, _XSAVE_XMM_REGION_START]
      push_cast
      omega)]
    rw [if_neg (by simp only [_XSAVE_EXTENDED_REGION_START]; push_cast; omega)]
    rw [if_neg (by simp only [List.length_drop, List.length_take, List.length_drop]; omega)]
    rw [if_pos (by
      simp only [writeAt_length, _XSAVE_XMM_REGION_START, _XSAVE_EXTENDED_REGION_START]
      omega)]
    refine ⟨?_, rfl⟩
    have e1 : ((_XSAVE_XMM_REGION_START : Int) + (n : Int) * 16).toNat = 160 + 16 * n := by
      simp only [_XSAVE_XMM_REGION_START]; omega
    have e2 : ((_XSAVE_EXTENDED_REGION_START : Int) + (n : Int) * 16).toNat = 576 + 16 * n := by
      simp only [_XSAVE_EXTENDED_REGION_START]; omega
    rw [e1, e2]

/-! ## Helper lemmas for the encoder proofs -/

theorem getD_take (l : List Nat) (k i : Nat) (h : i < k) :
    (l.take k).getD i 0 = l.getD i 0 := by
  rw [List.getD_eq_getElem?_getD, List.getD_eq_getElem?_getD, List.getElem?_take, if_pos h]

theorem getD_drop (l : List Nat) (k i : Nat) :
    (l.drop k).getD i 0 = l.getD (k + i) 0 := by
  rw [List.getD_eq_getElem?_getD, List.getD_eq_getElem?_getD, List.getElem?_drop]

/-- Result shape of SetXmmRegister for a value of at most 16 bytes
whose SSE-slice offset is inside the buffer: one write, success. -/
theorem setXmm_result_short (st : AMD64Xstate) (n : Nat) (value : List Nat)
    (hn : n < 16) (hL : value.length ≤ 16) (hL1 : 1 ≤ value.length)
    (h1 : 160 + 16 * n < st.Xsave.length) :
    st.SetXmmRegister n value
      = ({ st with Xsave := writeAt st.Xsave (160 + 16 * n) value }, none) := by
  rw [AMD64Xstate.SetXmmRegister]
  rw [if_neg (by omega), if_neg (by omega)]
  simp only
  rw [if_neg (by simp only [_XSAVE_XMM_REGION_START]; push_cast; omega)]
  rw [if_neg (by simp only [_XSAVE_XMM_REGION_START]; push_cast; omega)]
  rw [List.take_of_length_le hL, List.drop_eq_nil_of_le hL]
  rw [if_pos (by simp)]
  have e1 : ((_XSAVE_XMM_REGION_START : Int) + (n : Int) * 16).toNat = 160 + 16 * n := by
    simp only [_XSAVE_XMM_REGION_START]; omega
  rw [e1]

/-- Result shape of SetXmmRegister for a value of 17..32 bytes whose
first two slice offsets are inside the buffer: two writes, success. -/
theorem setXmm_result_mid (st : AMD64Xstate) (n : Nat) (value : List Nat)
    (hn : n < 16) (hL : 16 < value.length) (hL2 : value.length ≤ 32)
    (h1 : 160 + 16 * n < st.Xsave.length) (h2 : 576 + 16 * n < st.Xsave.length) :
    st.SetXmmRegister n value
      = ({ st with Xsave := writeAt (writeAt st.Xsave (160 + 16 * n) (value.take 16))
                              (576 + 16 * n) (value.drop 16) }, none) := by
  rw [AMD64Xstate.SetXmmRegister]
  rw [if_neg (by omega), if_neg (by omega)]
  simp only
  rw [if_neg (by simp only [_XSAVE_XMM_REGION_START]; push_cast; omega)]
  rw [if_neg (by simp only [_XSAVE_XMM_REGION_START]; push_cast; omega)]
  rw [if_neg (by simp only [List.length_drop]; omega)]
  rw [if_neg (by
    simp only [writeAt_length, _XSAVE_EXTENDED_REGION_START]; push_cast; omega)]
  rw [if_neg (by simp only [_XSAVE_EXTENDED_REGION_START]; push_cast; omega)]
  have hrest : (value.drop 16).take 16 = value.drop 16 :=
    List.take_of_length_le (by simp only [List.length_drop]; omega)
  rw [hrest, List.drop_drop, if_pos (by simp only [List.length_drop]; omega)]
  have e1 : ((_XSAVE_XMM_REGION_START : Int) + (n : Int) * 16).toNat = 160 + 16 * n := by
    simp only [_XSAVE_XMM_REGION_START]; omega
  have e2 : ((_XSAVE_EXTENDED_REGION_START : Int) + (n : Int) * 16).toNat = 576 + 16 * n := by
    simp only [_XSAVE_EXTENDED_REGION_START]; omega
  rw [e1, e2]

/-- Result shape of SetXmmRegister for a value of 33..64 bytes with all
three slice offsets inside the buffer: three writes, success. -/
theorem setXmm_result_long (st : AMD64Xstate) (n : Nat) (value : List Nat)
    (hn : n < 16) (hL : 32 < value.length) (hL2 : value.length ≤ 64)
    (h1 : 160 + 16 * n < st.Xsave.length) (h2 : 576 + 16 * n < st.Xsave.length)
    (h3a : 0 ≤ st.zmmHi256offset)
    (h3b : st.zmmHi256offset + (n : Int) * 32 < (st.Xsave.length : Int)) :
    st.SetXmmRegister n value
      = ({ st with Xsave := writeAt (writeAt (writeAt st.Xsave (160 + 16 * n) (value.take 16))
                              (576 + 16 * n) ((value.drop 16).take 16))
                              (st.zmmHi256offset.toNat + 32 * n) (value.drop 32) }, none) := by
  rw [AMD64Xstate.SetXmmRegister]
  rw [if_neg (by omega), if_neg (by omega)]
  simp only
  rw [if_neg (by simp only [_XSAVE_XMM_REGION_START]; push_cast; omega)]
  rw [if_neg (by simp only [_XSAVE_XMM_REGION_START]; push_cast; omega)]
  rw [if_neg (by simp only [List.length_drop]; omega)]
  rw [if_neg (by
    simp only [writeAt_length, _XSAVE_EXTENDED_REGION_START]; push_cast; omega)]
  rw [if_neg (by simp only [_XSAVE_EXTENDED_REGION_START]; push_cast; omega)]
  rw [List.drop_drop]
  rw [if_neg (by simp only [List.length_drop]; omega)]
  rw [if_neg (by simp only [writeAt_length]; omega)]
  rw [if_neg (by omega)]
  have e1 : ((_XSAVE_XMM_REGION_START : Int) + (n : Int) * 16).toNat = 160 + 16 * n := by
    simp only [_XSAVE_XMM_REGION_START]; omega
  have e2 : ((_XSAVE_EXTENDED_REGION_START : Int) + (n : Int) * 16).toNat = 576 + 16 * n := by
    simp only [_XSAVE_EXTENDED_REGION_START]; omega
  have e3 : (st.zmmHi256offset + (n : Int) * 32).toNat = st.zmmHi256offset.toNat + 32 * n := by
    omega
  rw [e1, e2, e3]

/-! ## C2 -/

/-- C2 (amended): the encoder split law.  Provided every written slice
fits wholly inside the buffer (and, when the value exceeds 32 bytes, the
cached vendor offset is at least 832 so the three regions are disjoint),
a successful SetXmmRegister leaves value[0:min(L,16)] at 160 + 16n,
value[16:min(L,32)] at 576 + 16n when L > 16, and value[32:L] at the
cached vendor offset + 32n when L > 32, with every other byte and the
buffer length unchanged; and a slice whose start offset lies at or past
the end of the buffer makes the call fail without writing that slice
(earlier slices stay written).  Without the fit hypotheses the law fails
because Go copy truncates at the buffer end (see the counterexample). -/
theorem C2_split_law_amended (st : AMD64Xstate) (n : Nat) (value : List Nat)
    (hn : n < 16) (hL1 : 1 ≤ value.length) (hL2 : value.length ≤ 64) :
    ((160 + 16 * n + min value.length 16 ≤ st.Xsave.length) →
     (16 < value.length → 576 + 16 * n + min (value.length - 16) 16 ≤ st.Xsave.length) →
     (32 < value.length → 832 ≤ st.zmmHi256offset ∧
        st.zmmHi256offset + (n : Int) * 32 + ((value.length : Int) - 32) ≤ (st.Xsave.length : Int)) →
      ((st.SetXmmRegister n value).2 = none ∧
       (st.SetXmmRegister n value).1.Xsave.length = st.Xsave.length ∧
       (∀ i, i < min value.length 16 →
         (st.SetXmmRegister n value).1.Xsave.getD (160 + 16 * n + i) 0 = value.getD i 0) ∧
       (∀ i, i < min (value.length - 16) 16 →
         (st.SetXmmRegister n value).1.Xsave.getD (576 + 16 * n + i) 0 = value.getD (16 + i) 0) ∧
       (∀ i, i < value.length - 32 →
         (st.SetXmmRegister n value).1.Xsave.getD (st.zmmHi256offset.toNat + 32 * n + i) 0
           = value.getD (32 + i) 0) ∧
       (∀ i, ¬ (160 + 16 * n ≤ i ∧ i < 160 + 16 * n + min value.length 16) →
             ¬ (576 + 16 * n ≤ i ∧ i < 576 + 16 * n + min (value.length - 16) 16) →
             ¬ (st.zmmHi256offset.toNat + 32 * n ≤ i ∧
                i < st.zmmHi256offset.toNat + 32 * n + (value.length - 32)) →
         (st.SetXmmRegister n value).1.Xsave.getD i 0 = st.Xsave.getD i 0))) ∧
    ((st.Xsave.length ≤ 160 + 16 * n) →
      st.SetXmmRegister n value = (st, some .xmmNotInXsave)) ∧
    ((160 + 16 * n < st.Xsave.length) → 16 < value.length →
     (st.Xsave.length ≤ 576 + 16 * n) →
      st.SetXmmRegister n value =
        ({ st with Xsave := writeAt st.Xsave (160 + 16 * n) (value.take 16) },
          some .ymmNotInXsave)) ∧
    ((160 + 16 * n < st.Xsave.length) → (576 + 16 * n < st.Xsave.length) → 32 < value.length →
     ((st.Xsave.length : Int) ≤ st.zmmHi256offset + (n : Int) * 32) →
      st.SetXmmRegister n value =
        ({ st with Xsave := writeAt (writeAt st.Xsave (160 + 16 * n) (value.take 16))
                              (576 + 16 * n) ((value.drop 16).take 16) },
          some .zmmNotInXsave)) := by
  refine ⟨?_, ?_, ?_, ?_⟩
  · -- (A) success case
    intro hfit1 hfit2 hfit3
    by_cases hc16 : value.length ≤ 16
    · have hres := setXmm_result_short st n value hn hc16 hL1 (by omega)
      rw [hres]
      simp only [writeAt_length]
      refine ⟨by trivial, by trivial, ?_, ?_, ?_, ?_⟩
      · intro i hi
        rw [writeAt_getD, if_pos (by omega)]
        congr 1
        omega
      · intro i hi
        omega
      · intro i hi
        omega
      · intro i hx hy hz
        rw [writeAt_getD, if_neg (by omega)]
    · by_cases hc32 : value.length ≤ 32
      · have hres := setXmm_result_mid st n value hn (by omega) hc32
          (by omega) (by omega)
        rw [hres]
        simp only [writeAt_length]
        have hmin1 : min value.length 16 = 16 := by omega
        have hmin2 : min (value.length - 16) 16 = value.length - 16 := by omega
        refine ⟨by trivial, by trivial, ?_, ?_, ?_, ?_⟩
        · intro i hi
          rw [writeAt_getD, if_neg (by simp only [List.length_drop, writeAt_length]; omega)]
          rw [writeAt_getD, if_pos (by simp only [List.length_take]; omega)]
          rw [show 160 + 16 * n + i - (160 + 16 * n) = i from by omega]
          exact getD_take value 16 i (by omega)
        · intro i hi
          rw [writeAt_getD, if_pos (by simp only [List.length_drop, writeAt_length]; omega)]
          rw [show 576 + 16 * n + i - (576 + 16 * n) = i from by omega]
          exact getD_drop value 16 i
        · intro i hi
          omega
        · intro i hx hy hz
          rw [writeAt_getD, if_neg (by simp only [List.length_drop, writeAt_length]; omega)]
          rw [writeAt_getD, if_neg (by simp only [List.length_take, List.length_drop]; omega)]
      · obtain ⟨hoff, hbound⟩ := hfit3 (by omega)
        have hres := setXmm_result_long st n value hn (by omega) hL2
          (by omega) (by omega) (by omega) (by omega)
        rw [hres]
        simp only [writeAt_length]
        have hmin1 : min value.length 16 = 16 := by omega
        have hmin2 : min (value.length - 16) 16 = 16 := by omega
        have hdis : 832 ≤ st.zmmHi256offset.toNat := by omega
        have hzlen : st.zmmHi256offset.toNat + 32 * n + (value.length - 32) ≤ st.Xsave.length := by
          omega
        refine ⟨by trivial, by trivial, ?_, ?_, ?_, ?_⟩
        · intro i hi
          rw [writeAt_getD,
            if_neg (by simp only [List.length_drop, writeAt_length]; omega)]
          rw [writeAt_getD,
            if_neg (by simp only [List.length_take, List.length_drop, writeAt_length]; omega)]
          rw [writeAt_getD, if_pos (by simp only [List.length_take]; omega)]
          rw [show 160 + 16 * n + i - (160 + 16 * n) = i from by omega]
          exact getD_take value 16 i (by omega)
        · intro i hi
          rw [writeAt_getD,
            if_neg (by simp only [List.length_drop, writeAt_length]; omega)]
          rw [writeAt_getD,
            if_pos (by simp only [List.length_take, List.length_drop, writeAt_length]; omega)]
          rw [show 576 + 16 * n + i - (576 + 16 * n) = i from by omega]
          rw [getD_take (value.drop 16) 16 i (by omega)]
          exact getD_drop value 16 i
        · intro i hi
          rw [writeAt_getD,
            if_pos (by simp only [List.length_drop, writeAt_length]; omega)]
          rw [show st.zmmHi256offset.toNat + 32 * n + i - (st.zmmHi256offset.toNat + 32 * n) = i
            from by omega]
          exact getD_drop value 32 i
        · intro i hx hy hz
          rw [writeAt_getD,
            if_neg (by simp only [List.length_drop, writeAt_length]; omega)]
          rw [writeAt_getD,
            if_neg (by simp only [List.length_take, List.length_drop, writeAt_length]; omega)]
          rw [writeAt_getD, if_neg (by simp only [List.length_take, List.length_drop]; omega)]
  · -- (B1)
    intro hb
    rw [AMD64Xstate.SetXmmRegister]
    rw [if_neg (by omega), if_neg (by omega)]
    simp only
    rw [if_pos (by simp only [_XSAVE_XMM_REGION_START]; push_cast; omega)]
  · -- (B2)
    intro h1 h16 hb
    rw [AMD64Xstate.SetXmmRegister]
    rw [if_neg (by omega), if_neg (by omega)]
    simp only
    rw [if_neg (by simp only [_XSAVE_XMM_REGION_START]; push_cast; omega)]
    rw [if_neg (by simp only [_XSAVE_XMM_REGION_START]; push_cast; omega)]
    rw [if_neg (by simp only [List.length_drop]; omega)]
    rw [if_pos (by
      simp only [writeAt_length, _XSAVE_EXTENDED_REGION_START]; push_cast; omega)]
    have e1 : ((_XSAVE_XMM_REGION_START : Int) + (n : Int) * 16).toNat = 160 + 16 * n := by
      simp only [_XSAVE_XMM_REGION_START]; omega
    rw [e1]
  · -- (B3)
    intro h1 h2 h32 hb
    rw [AMD64Xstate.SetXmmRegister]
    rw [if_neg (by omega), if_neg (by omega)]
    simp only
    rw [if_neg (by simp only [_XSAVE_XMM_REGION_START]; push_cast; omega)]
    rw [if_neg (by simp only [_XSAVE_XMM_REGION_START]; push_cast; omega)]
    rw [if_neg (by simp only [List.length_drop]; omega)]
    rw [if_neg (by
      simp only [writeAt_length, _XSAVE_EXTENDED_REGION_START]; push_cast; omega)]
    rw [if_neg (by simp only [_XSAVE_EXTENDED_REGION_START]; push_cast; omega)]
    rw [List.drop_drop]
    rw [if_neg (by simp only [List.length_drop]; omega)]
    rw [if_pos (by simp only [writeAt_length]; omega)]
    have e1 : ((_XSAVE_XMM_REGION_START : Int) + (n : Int) * 16).toNat = 160 + 16 * n := by
      simp only [_XSAVE_XMM_REGION_START]; omega
    have e2 : ((_XSAVE_EXTENDED_REGION_START : Int) + (n : Int) * 16).toNat = 576 + 16 * n := by
      simp only [_XSAVE_EXTENDED_REGION_START]; omega
    rw [e1, e2]

/-- Counterexample to C2 as stated: on a 170-byte buffer, writing a full
16-byte value to index 0 succeeds (offset 160 is inside the buffer), but
the buffer afterwards does NOT contain value[0:16] at offset 160 - byte
12 of the slice (position 172) was truncated away by Go copy, so the
claimed post-state fails while the call reports success. -/
theorem C2_counterexample :
    ((mkXstate (List.replicate 170 0) 1152).SetXmmRegister 0 (List.replicate 16 7)).2 = none ∧
    ((mkXstate (List.replicate 170 0) 1152).SetXmmRegister 0
        (List.replicate 16 7)).1.Xsave.getD (160 + 16 * 0 + 12) 0 = 0 ∧
    (List.replicate 16 7).getD 12 0 = 7 ∧
    min (List.replicate 16 7).length 16 = 16 := by
  refine ⟨by decide, by decide, by decide, by decide⟩

/-- Counterexample to C10 as stated: SetXmmRegister with the negative
index -1 on a 576-byte buffer returns a nil error (no rejection) and
writes the byte into the buffer at offset 144 = 160 - 16, inside the
ST-register area of the legacy region. -/
theorem C10_counterexample :
    ((mkXstate (List.replicate 576 0) 0).SetXmmRegister (-1) [7]).2 = none ∧
    ((mkXstate (List.replicate 576 0) 0).SetXmmRegister (-1) [7]).1.Xsave.getD 144 0 = 7 := by
  refine ⟨by decide, by decide⟩

/-- Witness for C10_negative_index_amended at n = -1 on a 576-byte
buffer. -/
theorem C10_negative_index_amended_witness :
    ((-1 : Int) < 0 ∧ 1 ≤ ([7] : List Nat).length ∧ ([7] : List Nat).length ≤ 16) ∧
    (mkXstate (List.replicate 576 0) 0).SetXmmRegister (-1) [7] =
      (if ((mkXstate (List.replicate 576 0) 0).Xsave.length : Int)
          ≤ (_XSAVE_XMM_REGION_START : Int) + (-1) * 16 then
        (mkXstate (List.replicate 576 0) 0, some .xmmNotInXsave)
      else if (_XSAVE_XMM_REGION_START : Int) + (-1) * 16 < 0 then
        (mkXstate (List.replicate 576 0) 0, some .sliceOutOfRange)
      else
        ({ mkXstate (List.replicate 576 0) 0 with
            Xsave := writeAt (mkXstate (List.replicate 576 0) 0).Xsave
              ((_XSAVE_XMM_REGION_START : Int) + (-1) * 16).toNat [7] }, none)) :=
  ⟨⟨by decide, by decide, by decide⟩,
   C10_negative_index_amended (mkXstate (List.replicate 576 0) 0) (-1) [7]
     (by decide) (by decide) (by decide)⟩

/-- A state with a 1800-byte buffer and cached AVX-512 offset 1152. -/
def st1800 : AMD64Xstate := mkXstate (List.replicate 1800 0) 1152

/-- A 64-byte register value. -/
def val64 : List Nat := List.replicate 64 5

/-- Witness for C2_split_law_amended: a 64-byte value written to index 1
of an 1800-byte buffer with vendor offset 1152; sample bytes of each of
the three slices land at their offsets, byte 0 is unchanged, and on a
100-byte buffer the same call fails with nothing written. -/
theorem C2_split_law_amended_witness :
    ((1 : Nat) < 16 ∧ 1 ≤ val64.length ∧ val64.length ≤ 64 ∧
     160 + 16 * 1 + min val64.length 16 ≤ st1800.Xsave.length) ∧
    (st1800.SetXmmRegister 1 val64).2 = none ∧
    (st1800.SetXmmRegister 1 val64).1.Xsave.getD (160 + 16 * 1 + 3) 0 = val64.getD 3 0 ∧
    (st1800.SetXmmRegister 1 val64).1.Xsave.getD (576 + 16 * 1 + 3) 0 = val64.getD (16 + 3) 0 ∧
    (st1800.SetXmmRegister 1 val64).1.Xsave.getD
        (st1800.zmmHi256offset.toNat + 32 * 1 + 3) 0 = val64.getD (32 + 3) 0 ∧
    (st1800.SetXmmRegister 1 val64).1.Xsave.getD 0 0 = st1800.Xsave.getD 0 0 ∧
    (mkXstate (List.replicate 100 0) 1152).SetXmmRegister 1 val64
      = (mkXstate (List.replicate 100 0) 1152, some .xmmNotInXsave) := by
  have appA := (C2_split_law_amended st1800 1 val64 (by decide) (by decide) (by decide)).1
    (by decide) (by decide) (by decide)
  have appB := (C2_split_law_amended (mkXstate (List.replicate 100 0) 1152) 1 val64
    (by decide) (by decide) (by decide)).2.1 (by decide)
  exact ⟨⟨by decide, by decide, by decide, by decide⟩, appA.1,
    appA.2.2.1 3 (by decide), appA.2.2.2.1 3 (by decide),
    appA.2.2.2.2.1 3 (by decide),
    appA.2.2.2.2.2 0 (by decide) (by decide) (by decide), appB⟩

/-- Witness for C5_boundaries: index 16, a 65-byte value, and a 64-byte
value on an 832-byte buffer (too short for the third slice at offset
1152) which commits slices 1 and 2 before failing. -/
theorem C5_boundaries_witness :
    ((mkXstate (List.replicate 832 0) 1152).SetXmmRegister 16 [1]
      = (mkXstate (List.replicate 832 0) 1152, some .notSupported) ∧
     XsaveErr.notSupported.isRegisterWriteOutOfRange = true) ∧
    ((mkXstate (List.replicate 832 0) 1152).SetXmmRegister 3 (List.replicate 65 1)
      = (mkXstate (List.replicate 832 0) 1152, some .tooLarge) ∧
     XsaveErr.tooLarge.isRegisterWriteOutOfRange = true) ∧
    ((mkXstate (List.replicate 832 0) 1152).SetXmmRegister 0 (List.replicate 64 9)
      = ({ mkXstate (List.replicate 832 0) 1152 with
            Xsave := writeAt (writeAt (List.replicate 832 0) (160 + 16 * 0)
                        ((List.replicate 64 9).take 16))
                      (576 + 16 * 0) (((List.replicate 64 9).drop 16).take 16) },
          some .zmmNotInXsave) ∧
     XsaveErr.zmmNotInXsave.isRegisterWriteOutOfRange = true) :=
  ⟨C5_boundaries.1 (mkXstate (List.replicate 832 0) 1152) 16 [1] (by decide),
   C5_boundaries.2.1 (mkXstate (List.replicate 832 0) 1152) 3 (List.replicate 65 1)
     (by decide) (by decide),
   C5_boundaries.2.2 (mkXstate (List.replicate 832 0) 1152) 0 (List.replicate 64 9)
     (by decide) (by decide) (by decide) (by decide) (by decide)⟩

/-! ## C6 -/

/-- The projected register list written following the claim's wording:
the control, status, tag and opcode words, instruction pointer and data
pointer as 64-bit values; then ST(0)..ST(7), each 10 bytes (the 64-bit
mantissa packed little-endian from two 32-bit storage words, then the
16-bit exponent/sign word); then MXCSR and its mask; then for each n in
0..15 a 16-byte XMM row, a 16-byte YMM high-half row only when AVX is
present, and a 32-byte ZMM high-half row only when AVX-512 (with AVX) is
present. -/
def projectSpec (x : AMD64Xstate) : List Register :=
  [⟨"CW", .u64 (x.fpRegs.Cwd % 2^16)⟩, ⟨"SW", .u64 (x.fpRegs.Swd % 2^16)⟩,
   ⟨"TW", .u64 (x.fpRegs.Ftw % 2^16)⟩, ⟨"FOP", .u64 (x.fpRegs.Fop % 2^16)⟩,
   ⟨"FIP", .u64 (x.fpRegs.Rip % 2^64)⟩, ⟨"FDP", .u64 (x.fpRegs.Rdp % 2^64)⟩]
  ++ (List.range 8).map (fun k => ⟨s!"ST({k})", .bytes (stRegBytes x.fpRegs.StSpace k)⟩)
  ++ [⟨"MXCSR", .u64 (x.fpRegs.Mxcsr % 2^32)⟩,
      ⟨"MXCSR_MASK", .u64 (x.fpRegs.MxcrMask % 2^32)⟩]
  ++ (List.range 16).flatMap (fun n =>
      [⟨s!"XMM{n}", .bytes ((x.fpRegs.XmmSpace.drop (16*n)).take 16)⟩]
      ++ (if x.AvxState then
            [⟨s!"YMM{n}", .bytes ((x.YmmSpace.drop (16*n)).take 16)⟩]
            ++ (if x.Avx512State then
                  [⟨s!"ZMM{n}", .bytes ((x.ZmmSpace.drop (32*n)).take 32)⟩]
                else [])
          else []))

/-- Decode produces exactly the register list described by the claim. -/
theorem Decode_eq_projectSpec (x : AMD64Xstate) : x.Decode = projectSpec x := by
  rw [AMD64Xstate.Decode, projectSpec]
  rw [show List.range 8 = [0,1,2,3,4,5,6,7] from rfl,
      show List.range 16 = [0,1,2,3,4,5,6,7,8,9,10,11,12,13,14,15] from rfl]
  rcases hA : x.AvxState <;> rcases hB : x.Avx512State <;>
    simp [AppendUint64Register, AppendBytesRegister, hA, hB]

/-- The names emitted by the projector, as a function of the two
presence flags only. -/
def projectNames (avx avx512 : Bool) : List String :=
  ["CW", "SW", "TW", "FOP", "FIP", "FDP"]
  ++ (List.range 8).map (fun k => s!"ST({k})")
  ++ ["MXCSR", "MXCSR_MASK"]
  ++ (List.range 16).flatMap (fun n =>
      [s!"XMM{n}"] ++ (if avx then [s!"YMM{n}"] ++ (if avx512 then [s!"ZMM{n}"] else []) else []))

/-- The projected names depend only on the presence flags. -/
theorem map_name_projectSpec (x : AMD64Xstate) :
    (projectSpec x).map Register.name = projectNames x.AvxState x.Avx512State := by
  obtain ⟨fp, xs, a, ym, a5, zm, off⟩ := x
  rcases a <;> rcases a5 <;> rfl

/-- No register name is emitted twice by Decode. -/
theorem Decode_names_nodup (x : AMD64Xstate) :
    ((x.Decode).map Register.name).Nodup := by
  rw [Decode_eq_projectSpec, map_name_projectSpec]
  rcases x.AvxState <;> rcases x.Avx512State <;> decide

/-- C6: Decode emits the registers in the fixed order the claim
describes (CW, SW, TW, FOP, FIP, FDP; ST(0)..ST(7) as 10 packed bytes;
MXCSR, MXCSR_MASK; then per index a XMM row, a YMM row gated by AVX
presence and a ZMM row gated by AVX-512 presence), and no register name
is emitted twice. -/
theorem C6_projector_shape (x : AMD64Xstate) :
    x.Decode = projectSpec x ∧ ((x.Decode).map Register.name).Nodup :=
  ⟨Decode_eq_projectSpec x, Decode_names_nodup x⟩

/-! ## C7 -/

/-- Projecting XMM3 from any state returns bytes 48..63 of XmmSpace. -/
theorem findReg_Decode_XMM3 (x : AMD64Xstate) :
    findReg (x.Decode) "XMM3" = some (.bytes ((x.fpRegs.XmmSpace.drop 48).take 16)) := by
  rw [Decode_eq_projectSpec]
  obtain ⟨fp, xs, a, ym, a5, zm, off⟩ := x
  rcases a <;> rcases a5 <;> rfl

/-- For buffers longer than 576 bytes, decoding with readLegacy = true
always fills the legacy record from the first 512 bytes. -/
theorem xstateRead_fpRegs (buf : List Nat) (regset : AMD64Xstate) (hint : Int)
    (h : _XSAVE_HEADER_START + _XSAVE_HEADER_LEN < buf.length) :
    (AMD64XstateRead buf true regset hint).1.fpRegs = parseLegacy buf := by
  rw [AMD64XstateRead]
  rw [if_neg (by omega)]
  rw [if_neg (by
    rintro ⟨-, hh⟩
    simp only [_XSAVE_HEADER_START, _XSAVE_HEADER_LEN] at h hh
    omega)]
  simp only
  repeat' split
  all_goals first | rfl | (exfalso; simp_all)

/-- Bytes 48..63 of the parsed XmmSpace are bytes 208..223 of the raw
buffer. -/
theorem slice_shift (buf : List Nat) :
    ((((buf.drop 160).take 256).drop 48).take 16) = (buf.drop 208).take 16 := by
  rw [List.drop_take, List.take_take, List.drop_drop]
  norm_num

/-- C7: for every buffer long enough that decode populates the legacy
region, projecting XMM3 yields buffer bytes 208..223; writing those same
16 bytes back through SetXmmRegister at index 3 (on the state carrying
this buffer) succeeds, leaves the buffer identical, and re-decoding
yields the identical projected XMM3 value. -/
theorem C7_roundtrip (buf : List Nat) (regset : AMD64Xstate) (hint : Int)
    (h : _XSAVE_HEADER_START + _XSAVE_HEADER_LEN < buf.length) :
    findReg ((AMD64XstateRead buf true regset hint).1.Decode) "XMM3"
        = some (.bytes ((buf.drop 208).take 16)) ∧
    ({ (AMD64XstateRead buf true regset hint).1 with Xsave := buf }.SetXmmRegister 3
        ((buf.drop 208).take 16)).2 = none ∧
    ({ (AMD64XstateRead buf true regset hint).1 with Xsave := buf }.SetXmmRegister 3
        ((buf.drop 208).take 16)).1.Xsave = buf ∧
    findReg ((AMD64XstateRead
        ({ (AMD64XstateRead buf true regset hint).1 with Xsave := buf }.SetXmmRegister 3
          ((buf.drop 208).take 16)).1.Xsave true regset hint).1.Decode) "XMM3"
      = findReg ((AMD64XstateRead buf true regset hint).1.Decode) "XMM3" := by
  have hlen : 576 < buf.length := by
    simp only [_XSAVE_HEADER_START, _XSAVE_HEADER_LEN] at h
    omega
  have hval : ((buf.drop 208).take 16).length = 16 := by
    simp only [List.length_take, List.length_drop]
    omega
  have h1 : findReg ((AMD64XstateRead buf true regset hint).1.Decode) "XMM3"
      = some (.bytes ((buf.drop 208).take 16)) := by
    rw [findReg_Decode_XMM3, xstateRead_fpRegs buf regset hint h]
    rw [show (parseLegacy buf).XmmSpace = (buf.drop 160).take 256 from rfl]
    rw [slice_shift]
  have hres := setXmm_result_short
    { (AMD64XstateRead buf true regset hint).1 with Xsave := buf } 3
    ((buf.drop 208).take 16) (by omega) (by omega) (by omega) (by simp only []; omega)
  rw [show (160 + 16 * 3 : Nat) = 208 from rfl] at hres
  simp only [Nat.cast_ofNat] at hres
  have hsave : ({ (AMD64XstateRead buf true regset hint).1 with Xsave := buf }.SetXmmRegister 3
      ((buf.drop 208).take 16)).1.Xsave = buf := by
    rw [hres]
    exact writeAt_self buf 208 16
  refine ⟨h1, by rw [hres], hsave, by rw [hsave]⟩

/-- Witness for C7_roundtrip at a concrete 577-byte buffer. -/
theorem C7_roundtrip_witness :
    (_XSAVE_HEADER_START + _XSAVE_HEADER_LEN < (List.replicate 577 3).length) ∧
    (findReg ((AMD64XstateRead (List.replicate 577 3) true (mkXstate [] 0) 0).1.Decode) "XMM3"
        = some (.bytes (((List.replicate 577 3).drop 208).take 16)) ∧
     ({ (AMD64XstateRead (List.replicate 577 3) true (mkXstate [] 0) 0).1 with
          Xsave := List.replicate 577 3 }.SetXmmRegister 3
        (((List.replicate 577 3).drop 208).take 16)).2 = none ∧
     ({ (AMD64XstateRead (List.replicate 577 3) true (mkXstate [] 0) 0).1 with
          Xsave := List.replicate 577 3 }.SetXmmRegister 3
        (((List.replicate 577 3).drop 208).take 16)).1.Xsave = List.replicate 577 3 ∧
     findReg ((AMD64XstateRead
        ({ (AMD64XstateRead (List.replicate 577 3) true (mkXstate [] 0) 0).1 with
            Xsave := List.replicate 577 3 }.SetXmmRegister 3
          (((List.replicate 577 3).drop 208).take 16)).1.Xsave true (mkXstate [] 0) 0).1.Decode)
        "XMM3"
      = findReg ((AMD64XstateRead (List.replicate 577 3) true (mkXstate [] 0) 0).1.Decode)
          "XMM3") :=
  ⟨by decide, C7_roundtrip (List.replicate 577 3) (mkXstate [] 0) 0 (by decide)⟩
